import Mathlib

/-!
Shallow embedding of the reporting-app authorization/configuration core
(`permissions_service.py`, `config_service.py`, `auth_middleware.py`,
`user_context.py`).  External collaborators (identity lookup, privilege
store, metadata store, catalog enumerators) are modelled as oracle
functions; exceptions raised by a collaborator are modelled as `Option`
results (`none` = the call raised); mutable caches are threaded as
explicit state, together with a log of the collaborator calls made.
-/

namespace ReportingApp

/-! ### Python-style primitives (dict, `str.replace`, `in`, `.upper()`) -/

/-- Python `dict` lookup (`d.get(k)` / `k in d`), as an association list. -/
def dictGet {α : Type} (d : List (String × α)) (k : String) : Option α :=
  match d with
  | [] => none
  | (k', v) :: rest => if k' = k then some v else dictGet rest k

/-- Python `dict` assignment `d[k] = v` (overwrite or append). -/
def dictSet {α : Type} (d : List (String × α)) (k : String) (v : α) : List (String × α) :=
  match d with
  | [] => [(k, v)]
  | (k', v') :: rest => if k' = k then (k, v) :: rest else (k', v') :: dictSet rest k v

/-- Python `del d[k]` / `d.pop(k, None)`. -/
def dictDel {α : Type} (d : List (String × α)) (k : String) : List (String × α) :=
  match d with
  | [] => []
  | (k', v') :: rest => if k' = k then rest else (k', v') :: dictDel rest k

/-- Python `pat in s` on character lists (Python substring containment). -/
def hasSubList (l pat : List Char) : Bool :=
  match l with
  | [] => pat.isEmpty
  | _ :: t => pat.isPrefixOf l || hasSubList t pat

/-- Python `pat in s` for strings. -/
def strIn (pat s : String) : Bool :=
  hasSubList s.data pat.data

/-- Fuelled worker for Python `str.replace` (non-overlapping, left to right). -/
def replaceListAux (fuel : Nat) (l pat rep : List Char) : List Char :=
  match fuel with
  | 0 => l
  | fuel' + 1 =>
    match l with
    | [] => []
    | c :: t =>
      if pat.isPrefixOf l then rep ++ replaceListAux fuel' (l.drop pat.length) pat rep
      else c :: replaceListAux fuel' t pat rep

/-- Python `s.replace(pat, rep)`; every call site passes a non-empty `pat`,
so the empty-pattern guard is never reached. -/
def pyReplace (s pat rep : String) : String :=
  if pat.isEmpty then s else ⟨replaceListAux s.data.length s.data pat.data rep.data⟩

/-- Python `s.upper()` (ASCII is all that appears in the SQL handled here). -/
def pyUpper (s : String) : String :=
  ⟨s.data.map Char.toUpper⟩

/-! ### `user_context.py`: `AccessLevel`, `DataAccessScope` -/

/-- Model of `AccessLevel` enum. -/
inductive AccessLevel where
  | none
  | read
  | write
  | admin
deriving DecidableEq

/-- Model of `DataAccessScope` (Python sets/dicts become lists keyed by strings;
membership, not order, is what all the consumers test). -/
structure DataAccessScope where
  accessible_catalogs : List String
  accessible_schemas : List String
  accessible_tables : List String
  row_level_filters : List (String × String)
  restricted_columns : List (String × List String)
  access_levels : List (String × AccessLevel)
deriving DecidableEq

/-- The `field(default_factory=...)` empty scope. -/
def emptyScope : DataAccessScope :=
  { accessible_catalogs := []
    accessible_schemas := []
    accessible_tables := []
    row_level_filters := []
    restricted_columns := []
    access_levels := [] }

/-- Model of `DataAccessScope.can_access_catalog`. -/
def can_access_catalog (scope : DataAccessScope) (catalog : String) : Bool :=
  scope.accessible_catalogs.contains catalog || scope.accessible_catalogs.contains "*"

/-- Model of `DataAccessScope.can_access_schema`. -/
def can_access_schema (scope : DataAccessScope) (catalog schema : String) : Bool :=
  let full_name := catalog ++ "." ++ schema
  scope.accessible_schemas.contains full_name ||
    scope.accessible_schemas.contains (catalog ++ ".*") ||
    scope.accessible_schemas.contains "*.*"

/-- Model of `DataAccessScope.can_access_table`. -/
def can_access_table (scope : DataAccessScope) (catalog schema table : String) : Bool :=
  let full_name := catalog ++ "." ++ schema ++ "." ++ table
  scope.accessible_tables.contains full_name ||
    scope.accessible_tables.contains (catalog ++ "." ++ schema ++ ".*") ||
    scope.accessible_tables.contains (catalog ++ ".*.*") ||
    scope.accessible_tables.contains "*.*.*"

/-! ### `auth_middleware.py`: `UserContext` and the session cache -/

/-- Model of `UserContext`; `hasClient` models whether `workspace_client` is set
(`None` versus a live client handle). -/
structure UserContext where
  email : String
  user_id : String
  groups : List String
  is_admin : Bool
  hasClient : Bool
deriving DecidableEq

/-- Model of `_cache_ttl_minutes = 5`, in seconds (time is modelled in seconds). -/
def sessionCacheTtl : Nat := 5 * 60

/-- The module-level session cache plus a log of the identity-lookup calls
(`extract_user_from_token` invocations), recorded by the token used. -/
structure SessState where
  cache : List (String × (UserContext × Nat))
  lookups : List String
deriving DecidableEq

/-- Model of `cache_user_session(token, user)` at time `now`. -/
def cache_user_session (st : SessState) (token : String) (u : UserContext) (now : Nat) :
    SessState :=
  { st with cache := dictSet st.cache token (u, now) }

/-- Model of `get_cached_session(token)` at time `now`: fresh entries (age strictly
below the TTL) are returned; stale entries are deleted and `None` returned. -/
def get_cached_session (st : SessState) (token : String) (now : Nat) :
    Option UserContext × SessState :=
  match dictGet st.cache token with
  | Option.none => (Option.none, st)
  | some (u, cached_at) =>
    if now - cached_at < sessionCacheTtl then (some u, st)
    else (Option.none, { st with cache := dictDel st.cache token })

/-- Model of `get_user_context_cached` for a request carrying bearer token `token`:
consult the session cache; on a miss call the identity-lookup collaborator
(`identity`, where `none` models `extract_user_from_token` raising
`AuthenticationError`), cache the result, and return it. -/
def get_user_context_cached (identity : String → Option UserContext) (token : String)
    (now : Nat) (st : SessState) : Except String UserContext × SessState :=
  match get_cached_session st token now with
  | (some u, st1) => (Except.ok u, st1)
  | (Option.none, st1) =>
    let st2 := { st1 with lookups := st1.lookups ++ [token] }
    match identity token with
    | Option.none => (Except.error "Invalid or expired token", st2)
    | some u => (Except.ok u, cache_user_session st2 token u now)

/-! ### `permissions_service.py`: `PermissionsService` -/

/-- The `SecurableType` values the service passes to `grants.get_effective`. -/
inductive SecurableType where
  | catalog
  | schema
  | table
deriving DecidableEq

/-- The workspace-client collaborator, as oracles:
`catInfo` models `catalogs.get` (false = the call raises, e.g. no access);
`grants` models `grants.get_effective` for
`(securable_type, full_name, principal)` and yields the privilege strings of
the effective assignments (`none` = the call raises);
`catalogsList` models `catalogs.list` and `schemasList` models
`schemas.list(catalog_name=...)` (`none` = the call raises). -/
structure Workspace where
  catInfo : String → Bool
  grants : SecurableType → String → String → Option (List String)
  catalogsList : Option (List String)
  schemasList : String → Option (List String)

/-- Model of `PermissionsService` state: `_permission_cache` (email → key → bool)
plus a log of the `grants.get_effective` calls made, recorded as
`(securable_type, full_name)`. -/
structure PermState where
  cache : List (String × List (String × Bool))
  glog : List (SecurableType × String)
deriving DecidableEq

/-- Model of `cache_key in self._permission_cache.get(email, {})` plus the read. -/
def permCacheGet (st : PermState) (email key : String) : Option Bool :=
  match dictGet st.cache email with
  | Option.none => Option.none
  | some inner => dictGet inner key

/-- The cache write: `if email not in cache: cache[email] = {}` then
`cache[email][key] = value`. -/
def permCacheSet (st : PermState) (email key : String) (value : Bool) : PermState :=
  let inner := (dictGet st.cache email).getD []
  { st with cache := dictSet st.cache email (dictSet inner key value) }

/-- The f-string cache key `f"{email}:{name}:{privilege}"`. -/
def permCacheKey (email name privilege : String) : String :=
  email ++ ":" ++ name ++ ":" ++ privilege

/-- Record one `grants.get_effective` call in the log. -/
def logGrant (st : PermState) (t : SecurableType) (full_name : String) : PermState :=
  { st with glog := st.glog ++ [(t, full_name)] }

/-- Model of `PermissionsService.check_catalog_access`. -/
def check_catalog_access (w : Workspace) (u : UserContext)
    (catalog_name required_privilege : String) (st : PermState) : Bool × PermState :=
  if u.is_admin then (true, st)
  else
    let key := permCacheKey u.email catalog_name required_privilege
    match permCacheGet st u.email key with
    | some b => (b, st)
    | Option.none =>
      if u.hasClient then
        if w.catInfo catalog_name then
          let st1 := logGrant st SecurableType.catalog catalog_name
          match w.grants SecurableType.catalog catalog_name u.email with
          | Option.none => (false, st1)
          | some privs =>
            let has_access := privs.any (fun p => p = required_privilege)
            (has_access, permCacheSet st1 u.email key has_access)
        else (false, st)
      else (false, st)

/-- Model of `PermissionsService.check_schema_access`. -/
def check_schema_access (w : Workspace) (u : UserContext)
    (catalog_name schema_name required_privilege : String) (st : PermState) :
    Bool × PermState :=
  if u.is_admin then (true, st)
  else
    let r := check_catalog_access w u catalog_name "USAGE" st
    if r.1 then
      let full_name := catalog_name ++ "." ++ schema_name
      let key := permCacheKey u.email full_name required_privilege
      match permCacheGet r.2 u.email key with
      | some b => (b, r.2)
      | Option.none =>
        if u.hasClient then
          let st1 := logGrant r.2 SecurableType.schema full_name
          match w.grants SecurableType.schema full_name u.email with
          | Option.none => (false, st1)
          | some privs =>
            let has_access := privs.any (fun p => p = required_privilege)
            (has_access, permCacheSet st1 u.email key has_access)
        else (false, r.2)
    else (false, r.2)

/-- Model of `PermissionsService.check_table_access`. -/
def check_table_access (w : Workspace) (u : UserContext)
    (catalog_name schema_name table_name required_privilege : String) (st : PermState) :
    Bool × PermState :=
  if u.is_admin then (true, st)
  else
    let r := check_schema_access w u catalog_name schema_name "USAGE" st
    if r.1 then
      let full_name := catalog_name ++ "." ++ schema_name ++ "." ++ table_name
      let key := permCacheKey u.email full_name required_privilege
      match permCacheGet r.2 u.email key with
      | some b => (b, r.2)
      | Option.none =>
        if u.hasClient then
          let st1 := logGrant r.2 SecurableType.table full_name
          match w.grants SecurableType.table full_name u.email with
          | Option.none => (false, st1)
          | some privs =>
            let has_access := privs.any (fun p => p = required_privilege)
            (has_access, permCacheSet st1 u.email key has_access)
        else (false, r.2)
    else (false, r.2)

/-- The inner schema loop of `get_user_data_scope`. -/
def scopeAddSchemas (w : Workspace) (u : UserContext) (catalog : String)
    (schemas : List String) (scope : DataAccessScope) (st : PermState) :
    DataAccessScope × PermState :=
  match schemas with
  | [] => (scope, st)
  | sn :: rest =>
    let r := check_schema_access w u catalog sn "USAGE" st
    if r.1 then
      scopeAddSchemas w u catalog rest
        { scope with accessible_schemas := scope.accessible_schemas ++ [catalog ++ "." ++ sn] }
        r.2
    else scopeAddSchemas w u catalog rest scope r.2

/-- The outer catalog loop of `get_user_data_scope`; a failing
`schemas.list` is caught and the catalog's schemas skipped. -/
def scopeAddCatalogs (w : Workspace) (u : UserContext) (catalogs : List String)
    (scope : DataAccessScope) (st : PermState) : DataAccessScope × PermState :=
  match catalogs with
  | [] => (scope, st)
  | cn :: rest =>
    let r := check_catalog_access w u cn "USAGE" st
    if r.1 then
      let scope1 := { scope with accessible_catalogs := scope.accessible_catalogs ++ [cn] }
      match w.schemasList cn with
      | Option.none => scopeAddCatalogs w u rest scope1 r.2
      | some schemas =>
        let p := scopeAddSchemas w u cn schemas scope1 r.2
        scopeAddCatalogs w u rest p.1 p.2
    else scopeAddCatalogs w u rest scope r.2

/-- Model of `PermissionsService.get_user_data_scope`: admins get the wildcard scope;
without a workspace client the empty scope is returned; a failing
`catalogs.list` is caught and the (still empty) scope returned. -/
def get_user_data_scope (w : Workspace) (u : UserContext) (st : PermState) :
    DataAccessScope × PermState :=
  if u.is_admin then
    ({ emptyScope with
        accessible_catalogs := ["*"]
        accessible_schemas := ["*.*"]
        accessible_tables := ["*.*.*"] }, st)
  else if u.hasClient then
    match w.catalogsList with
    | Option.none => (emptyScope, st)
    | some catalogs => scopeAddCatalogs w u catalogs emptyScope st
  else (emptyScope, st)

/-- Model of `PermissionsService.inject_row_level_security`; `table_filters` is the
optional `Dict[str, str]` argument (`if not table_filters` is Python
truthiness: `None` and the empty dict both select the default-filter path). -/
def inject_row_level_security (sql : String) (u : UserContext)
    (table_filters : Option (List (String × String))) : String :=
  if u.is_admin then sql
  else
    let noFilters :=
      match table_filters with
      | Option.none => true
      | some l => l.isEmpty
    if noFilters then
      if strIn "WHERE" (pyUpper sql) then
        pyReplace sql "WHERE" ("WHERE current_user() = '" ++ u.email ++ "' AND")
      else sql
    else sql

/-- Model of `PermissionsService.clear_cache(user_email=...)`. -/
def clear_cache (st : PermState) (user_email : Option String) : PermState :=
  match user_email with
  | some e => { st with cache := dictDel st.cache e }
  | Option.none => { st with cache := [] }

/-! ### `config_service.py`: `ConfigService` -/

/-- One entry of `QueryConfig.parameters` as `build_query_from_template`
reads it: `param_def['name']`, `param_def.get('required', False)`,
`param_def.get('default_value')` (parameter values are strings after the
`str(...)` the code applies). -/
structure ParamDef where
  name : String
  required : Bool
  default_value : Option String
deriving DecidableEq

/-- Model of `QueryConfig` dataclass. -/
structure QueryConfig where
  id : String
  name : String
  description : Option String
  category : String
  sql_template : String
  parameters : List ParamDef
  output_schema : List String
  required_permissions : List String
  allow_drill_down : Bool
  drill_down_query_id : Option String
  cache_ttl_seconds : Nat
  tags : List String
  is_active : Bool
deriving DecidableEq

/-- A row of `dashboard_queries` as the service reads it: `row['k']` keys
are plain fields, `row.get('k', default)` keys are `Option` fields. -/
structure QueryRow where
  id : String
  name : String
  description : Option String
  category : String
  sql_template : String
  parameters : Option (List ParamDef)
  output_schema : Option (List String)
  required_permissions : Option (List String)
  allow_drill_down : Option Bool
  drill_down_query_id : Option String
  cache_ttl_seconds : Option Nat
  tags : Option (List String)
  is_active : Option Bool
deriving DecidableEq

/-- The `QueryConfig(...)` construction in `get_query_config` /
`get_all_queries`, defaults included. -/
def rowToQueryConfig (row : QueryRow) : QueryConfig :=
  { id := row.id
    name := row.name
    description := row.description
    category := row.category
    sql_template := row.sql_template
    parameters := row.parameters.getD []
    output_schema := row.output_schema.getD []
    required_permissions := row.required_permissions.getD []
    allow_drill_down := row.allow_drill_down.getD false
    drill_down_query_id := row.drill_down_query_id
    cache_ttl_seconds := row.cache_ttl_seconds.getD 300
    tags := row.tags.getD []
    is_active := row.is_active.getD true }

/-- Model of `FilterConfig` dataclass. -/
structure FilterConfig where
  id : String
  filter_name : String
  label : String
  filter_type : String
  data_type : String
  data_source : String
  static_options : List (String × String)
  options_query : Option String
  default_value : Option String
  applies_to_tabs : List String
  applies_to_queries : List String
  filter_expression_template : Option String
  display_order : Int
  is_required : Bool
  is_active : Bool
deriving DecidableEq

/-- A row of `filter_definitions` as the service reads it. -/
structure FilterRow where
  id : String
  filter_name : String
  label : String
  filter_type : String
  data_type : String
  data_source : String
  static_options : Option (List (String × String))
  options_query : Option String
  default_value : Option String
  applies_to_tabs : Option (List String)
  applies_to_queries : Option (List String)
  filter_expression_template : Option String
  display_order : Option Int
  is_required : Option Bool
  is_active : Option Bool
deriving DecidableEq

/-- The `FilterConfig(...)` construction in `get_filter_configs`. -/
def rowToFilterConfig (row : FilterRow) : FilterConfig :=
  { id := row.id
    filter_name := row.filter_name
    label := row.label
    filter_type := row.filter_type
    data_type := row.data_type
    data_source := row.data_source
    static_options := row.static_options.getD []
    options_query := row.options_query
    default_value := row.default_value
    applies_to_tabs := row.applies_to_tabs.getD []
    applies_to_queries := row.applies_to_queries.getD []
    filter_expression_template := row.filter_expression_template
    display_order := row.display_order.getD 0
    is_required := row.is_required.getD false
    is_active := row.is_active.getD true }

/-- Model of `VisualizationConfig` dataclass (`Any`-valued option maps are modelled
as string maps; only their presence/shape matters here). -/
structure VisualizationConfig where
  id : String
  viz_name : String
  viz_type : String
  query_id : String
  data_key : String
  x_axis_field : Option String
  y_axis_field : Option String
  color_scheme : List String
  title : Option String
  subtitle : Option String
  allow_drill_down : Bool
  drill_down_config : Option (List (String × String))
  chart_options : List (String × String)
  default_for_tab : Option String
  display_order : Int
  is_active : Bool
deriving DecidableEq

/-- A row of `visualization_configs` as the service reads it. -/
structure VizRow where
  id : String
  viz_name : String
  viz_type : String
  query_id : String
  data_key : String
  x_axis_field : Option String
  y_axis_field : Option String
  color_scheme : Option (List String)
  title : Option String
  subtitle : Option String
  allow_drill_down : Option Bool
  drill_down_config : Option (List (String × String))
  chart_options : Option (List (String × String))
  default_for_tab : Option String
  display_order : Option Int
  is_active : Option Bool
deriving DecidableEq

/-- The `VisualizationConfig(...)` construction in `get_viz_configs`. -/
def rowToVizConfig (row : VizRow) : VisualizationConfig :=
  { id := row.id
    viz_name := row.viz_name
    viz_type := row.viz_type
    query_id := row.query_id
    data_key := row.data_key
    x_axis_field := row.x_axis_field
    y_axis_field := row.y_axis_field
    color_scheme := row.color_scheme.getD []
    title := row.title
    subtitle := row.subtitle
    allow_drill_down := row.allow_drill_down.getD false
    drill_down_config := row.drill_down_config
    chart_options := row.chart_options.getD []
    default_for_tab := row.default_for_tab
    display_order := row.display_order.getD 0
    is_active := row.is_active.getD true }

/-- Values stored in the single `self._cache` dict; the key prefixes
(`query_`, `queries_`, `filters_`, `viz_`) keep the variants disjoint. -/
inductive CachedValue where
  | queryCfg (c : QueryConfig)
  | queryList (l : List QueryConfig)
  | filterList (l : List FilterConfig)
  | vizList (l : List VisualizationConfig)
deriving DecidableEq

/-- Python truthiness of a cached value (`if cached:`): a dataclass is
always truthy, a list is truthy iff non-empty. -/
def cvTruthy : CachedValue → Bool
  | CachedValue.queryCfg _ => true
  | CachedValue.queryList l => !l.isEmpty
  | CachedValue.filterList l => !l.isEmpty
  | CachedValue.vizList l => !l.isEmpty

/-- Model of `self._cache_ttl = timedelta(minutes=5)`, in seconds. -/
def configCacheTtl : Nat := 5 * 60

/-- Model of `ConfigService` constructor arguments that shape the generated SQL. -/
structure ConfigSvc where
  config_catalog : String
  config_schema : String
deriving DecidableEq

/-- The default `ConfigService(...)` instance. -/
def defaultConfigSvc : ConfigSvc :=
  { config_catalog := "mv_catalog", config_schema := "config_schema" }

/-- Model of `ConfigService._get_full_table_name`. -/
def get_full_table_name (svc : ConfigSvc) (table : String) : String :=
  svc.config_catalog ++ "." ++ svc.config_schema ++ "." ++ table

/-- Model of `ConfigService` state: `self._cache` (key → (value, cached_at)) plus a
log of the SQL statements handed to `_execute_query`. -/
structure ConfigState where
  cache : List (String × (CachedValue × Nat))
  qlog : List String
deriving DecidableEq

/-- The metadata-store collaborator: rows returned by `_execute_query` for
a given SQL text, per configuration table. -/
structure MetaStore where
  queryRows : String → List QueryRow
  filterRows : String → List FilterRow
  vizRows : String → List VizRow

/-- Model of `ConfigService._get_cached`: fresh entries (age strictly below the
5-minute TTL) are returned; stale entries are deleted and `None` returned. -/
def cfgGetCached (st : ConfigState) (key : String) (now : Nat) :
    Option CachedValue × ConfigState :=
  match dictGet st.cache key with
  | Option.none => (Option.none, st)
  | some (v, cached_at) =>
    if now - cached_at < configCacheTtl then (some v, st)
    else (Option.none, { st with cache := dictDel st.cache key })

/-- Model of `ConfigService._set_cached`. -/
def cfgSetCached (st : ConfigState) (key : String) (v : CachedValue) (now : Nat) :
    ConfigState :=
  { st with cache := dictSet st.cache key (v, now) }

/-- Python `x or 'all'` on an optional string (empty string is falsy). -/
def pyOrStr (o : Option String) (d : String) : String :=
  match o with
  | Option.none => d
  | some s => if s = "" then d else s

/-- Python truthiness of an optional string argument. -/
def pyTruthyOptStr (o : Option String) : Bool :=
  match o with
  | Option.none => false
  | some s => !(s = "")

/-- The SQL text `get_query_config` builds (triple-quoted f-string layout
preserved). -/
def queryConfigSql (svc : ConfigSvc) (query_id : String) : String :=
  "\n            SELECT *\n            FROM " ++ get_full_table_name svc "dashboard_queries" ++
    "\n            WHERE id = '" ++ query_id ++ "' AND is_active = true\n        "

/-- Model of `ConfigService.get_query_config` (the no-row case returns `None`
without caching). -/
def get_query_config (ms : MetaStore) (svc : ConfigSvc) (query_id : String) (now : Nat)
    (st : ConfigState) : Option QueryConfig × ConfigState :=
  let cache_key := "query_" ++ query_id
  match cfgGetCached st cache_key now with
  | (some (CachedValue.queryCfg c), st1) => (some c, st1)
  | (_, st1) =>
    let sql := queryConfigSql svc query_id
    let st2 := { st1 with qlog := st1.qlog ++ [sql] }
    match ms.queryRows sql with
    | [] => (Option.none, st2)
    | row :: _ =>
      let config := rowToQueryConfig row
      (some config, cfgSetCached st2 cache_key (CachedValue.queryCfg config) now)

/-- The SQL text `get_all_queries` builds. -/
def allQueriesSql (svc : ConfigSvc) (category : Option String) : String :=
  let base := "\n            SELECT *\n            FROM " ++
    get_full_table_name svc "dashboard_queries" ++
    "\n            WHERE is_active = true\n        "
  let withCat :=
    if pyTruthyOptStr category then base ++ " AND category = '" ++ category.getD "" ++ "'"
    else base
  withCat ++ " ORDER BY name"

/-- Model of `ConfigService.get_all_queries`; `if cached:` is Python truthiness, so
a cached *empty* list is treated as a miss and the store is queried again. -/
def get_all_queries (ms : MetaStore) (svc : ConfigSvc) (category : Option String) (now : Nat)
    (st : ConfigState) : List QueryConfig × ConfigState :=
  let cache_key := "queries_" ++ pyOrStr category "all"
  match cfgGetCached st cache_key now with
  | (some (CachedValue.queryList (c :: cs)), st1) => (c :: cs, st1)
  | (_, st1) =>
    let sql := allQueriesSql svc category
    let st2 := { st1 with qlog := st1.qlog ++ [sql] }
    let configs := (ms.queryRows sql).map rowToQueryConfig
    (configs, cfgSetCached st2 cache_key (CachedValue.queryList configs) now)

/-- The SQL text `get_filter_configs` builds. -/
def filterConfigsSql (svc : ConfigSvc) (filter_type : Option String) : String :=
  let base := "\n            SELECT *\n            FROM " ++
    get_full_table_name svc "filter_definitions" ++
    "\n            WHERE is_active = true\n        "
  let withType :=
    if pyTruthyOptStr filter_type then
      base ++ " AND filter_type = '" ++ filter_type.getD "" ++ "'"
    else base
  withType ++ " ORDER BY display_order, filter_name"

/-- The per-row tab filter in `get_filter_configs`
(`if tab and tab not in row.get('applies_to_tabs', []): continue`). -/
def filterRowKept (tab : Option String) (row : FilterRow) : Bool :=
  !(pyTruthyOptStr tab && !((row.applies_to_tabs.getD []).contains (tab.getD "")))

/-- Model of `ConfigService.get_filter_configs`. -/
def get_filter_configs (ms : MetaStore) (svc : ConfigSvc)
    (filter_type tab : Option String) (now : Nat) (st : ConfigState) :
    List FilterConfig × ConfigState :=
  let cache_key := "filters_" ++ pyOrStr filter_type "all" ++ "_" ++ pyOrStr tab "all"
  match cfgGetCached st cache_key now with
  | (some (CachedValue.filterList (c :: cs)), st1) => (c :: cs, st1)
  | (_, st1) =>
    let sql := filterConfigsSql svc filter_type
    let st2 := { st1 with qlog := st1.qlog ++ [sql] }
    let configs := ((ms.filterRows sql).filter (filterRowKept tab)).map rowToFilterConfig
    (configs, cfgSetCached st2 cache_key (CachedValue.filterList configs) now)

/-- The SQL text `get_viz_configs` builds. -/
def vizConfigsSql (svc : ConfigSvc) (tab : Option String) : String :=
  let base := "\n            SELECT *\n            FROM " ++
    get_full_table_name svc "visualization_configs" ++
    "\n            WHERE is_active = true\n        "
  let withTab :=
    if pyTruthyOptStr tab then base ++ " AND default_for_tab = '" ++ tab.getD "" ++ "'"
    else base
  withTab ++ " ORDER BY display_order, viz_name"

/-- Model of `ConfigService.get_viz_configs`. -/
def get_viz_configs (ms : MetaStore) (svc : ConfigSvc) (tab : Option String) (now : Nat)
    (st : ConfigState) : List VisualizationConfig × ConfigState :=
  let cache_key := "viz_" ++ pyOrStr tab "all"
  match cfgGetCached st cache_key now with
  | (some (CachedValue.vizList (c :: cs)), st1) => (c :: cs, st1)
  | (_, st1) =>
    let sql := vizConfigsSql svc tab
    let st2 := { st1 with qlog := st1.qlog ++ [sql] }
    let configs := (ms.vizRows sql).map rowToVizConfig
    (configs, cfgSetCached st2 cache_key (CachedValue.vizList configs) now)

/-- The errors `build_query_from_template` raises (`ValueError` in the
code, the spec's `ConfigurationError` taxonomy): unknown/inactive query id,
or a missing required parameter, carrying the parameter name. -/
inductive ConfigErr where
  | notFound (query_id : String)
  | missingParam (name : String)
deriving DecidableEq

/-- The `${name}` placeholder token. -/
def placeholder (name : String) : String :=
  "$\x7b" ++ name ++ "\x7d"

/-- The parameter-substitution loop of `build_query_from_template`: value
from `params` if present, else error if required, else the declared
default if any; substitution replaces every occurrence of the placeholder. -/
def resolveParams (params : List (String × String)) (defs : List ParamDef) (sql : String) :
    Except ConfigErr String :=
  match defs with
  | [] => Except.ok sql
  | d :: rest =>
    match dictGet params d.name with
    | some v => resolveParams params rest (pyReplace sql (placeholder d.name) v)
    | Option.none =>
      if d.required then Except.error (ConfigErr.missingParam d.name)
      else
        match d.default_value with
        | some dv => resolveParams params rest (pyReplace sql (placeholder d.name) dv)
        | Option.none => resolveParams params rest sql

/-- Model of `ConfigService.build_query_from_template`. -/
def build_query_from_template (ms : MetaStore) (svc : ConfigSvc) (query_id : String)
    (params : List (String × String)) (now : Nat) (st : ConfigState) :
    Except ConfigErr String × ConfigState :=
  match get_query_config ms svc query_id now st with
  | (Option.none, st1) => (Except.error (ConfigErr.notFound query_id), st1)
  | (some config, st1) => (resolveParams params config.parameters config.sql_template, st1)

/-- Model of `ConfigService.clear_cache`. -/
def config_clear_cache (st : ConfigState) : ConfigState :=
  { st with cache := [] }

/-! ### Shared concrete fixtures (used by witnesses and counterexamples) -/

/-- An admin user context. -/
def uAdmin : UserContext :=
  { email := "root@example.com", user_id := "u1", groups := ["admins"], is_admin := true
    hasClient := true }

/-- A non-admin user context with a live workspace client. -/
def uBob : UserContext :=
  { email := "a@b.com", user_id := "u0", groups := ["users"], is_admin := false
    hasClient := true }

/-- The empty permission-service state. -/
def permSt0 : PermState := { cache := [], glog := [] }

/-- A workspace whose privilege store always raises. -/
def wErr : Workspace :=
  { catInfo := fun _ => true, grants := fun _ _ _ => Option.none
    catalogsList := some [], schemasList := fun _ => some [] }

/-- A workspace that grants no privileges (empty effective assignments). -/
def wNoPriv : Workspace :=
  { catInfo := fun _ => true, grants := fun _ _ _ => some []
    catalogsList := some [], schemasList := fun _ => some [] }

/-- A workspace granting USAGE and SELECT on everything, with one catalog
holding one schema. -/
def wUsage : Workspace :=
  { catInfo := fun _ => true, grants := fun _ _ _ => some ["USAGE", "SELECT"]
    catalogsList := some ["cat1"], schemasList := fun _ => some ["s1"] }

/-! ### Dictionary and cache lemmas -/

theorem dictGet_dictSet {α : Type} (d : List (String × α)) (k k' : String) (v : α) :
    dictGet (dictSet d k v) k' = if k' = k then some v else dictGet d k' := by
  induction d with
  | nil =>
    by_cases h : k' = k
    · subst h; simp [dictGet, dictSet]
    · have h' : ¬k = k' := fun hh => h hh.symm
      simp [dictGet, dictSet, h, h']
  | cons hd tl ih =>
    obtain ⟨k0, v0⟩ := hd
    by_cases h0 : k0 = k
    · subst h0
      by_cases h1 : k' = k0
      · subst h1; simp [dictGet, dictSet]
      · have h' : ¬k0 = k' := fun hh => h1 hh.symm
        simp [dictGet, dictSet, h1, h']
    · by_cases h2 : k0 = k'
      · subst h2
        simp [dictGet, dictSet, h0]
      · simp [dictGet, dictSet, h0, h2, ih]

theorem permCacheGet_glog (st : PermState) (l : List (SecurableType × String))
    (e k : String) : permCacheGet { st with glog := l } e k = permCacheGet st e k := rfl

theorem permCacheGet_logGrant (st : PermState) (t : SecurableType) (n e k : String) :
    permCacheGet (logGrant st t n) e k = permCacheGet st e k := rfl

theorem permCacheGet_permCacheSet (st : PermState) (e k e' k' : String) (v : Bool) :
    permCacheGet (permCacheSet st e k v) e' k' =
      if e' = e then (if k' = k then some v else permCacheGet st e' k')
      else permCacheGet st e' k' := by
  unfold permCacheGet permCacheSet
  simp only [dictGet_dictSet]
  by_cases he : e' = e
  · subst he
    simp only [if_pos rfl]
    cases hm : dictGet st.cache e' with
    | none =>
      by_cases hk : k' = k
      · subst hk; simp [dictGet_dictSet, dictGet]
      · have h' : ¬k = k' := fun hh => hk hh.symm
        simp [dictGet_dictSet, dictGet, hk, h']
    | some inner =>
      by_cases hk : k' = k
      · subst hk; simp [dictGet_dictSet]
      · simp [dictGet_dictSet, hk]
  · simp [he]

/-! ### Collaborator-call-log lemmas -/

theorem check_catalog_access_glog (w : Workspace) (u : UserContext) (c p : String)
    (st : PermState) :
    ∃ l, (check_catalog_access w u c p st).2.glog = st.glog ++ l ∧
      ∀ e ∈ l, e.1 = SecurableType.catalog := by
  by_cases hadm : u.is_admin = true
  · exact ⟨[], by simp [check_catalog_access, hadm]⟩
  · cases hcache : permCacheGet st u.email (permCacheKey u.email c p) with
    | some b => exact ⟨[], by simp [check_catalog_access, hadm, hcache]⟩
    | none =>
      by_cases hcl : u.hasClient = true
      · by_cases hcat : w.catInfo c = true
        · cases hg : w.grants SecurableType.catalog c u.email with
          | none =>
            exact ⟨[(SecurableType.catalog, c)],
              by simp [check_catalog_access, hadm, hcache, hcl, hcat, hg, logGrant]⟩
          | some privs =>
            exact ⟨[(SecurableType.catalog, c)],
              by simp [check_catalog_access, hadm, hcache, hcl, hcat, hg, logGrant,
                permCacheSet]⟩
        · exact ⟨[], by simp [check_catalog_access, hadm, hcache, hcl, hcat]⟩
      · exact ⟨[], by simp [check_catalog_access, hadm, hcache, hcl]⟩

theorem check_schema_access_glog (w : Workspace) (u : UserContext) (c s p : String)
    (st : PermState) :
    ∃ l, (check_schema_access w u c s p st).2.glog = st.glog ++ l ∧
      ∀ e ∈ l, e.1 ≠ SecurableType.table := by
  obtain ⟨l0, hl0, hc0⟩ := check_catalog_access_glog w u c "USAGE" st
  have hnt0 : ∀ e ∈ l0, e.1 ≠ SecurableType.table := by
    intro e he
    rw [hc0 e he]
    intro hcontra
    exact SecurableType.noConfusion hcontra
  by_cases hadm : u.is_admin = true
  · exact ⟨[], by simp [check_schema_access, hadm], by simp⟩
  · cases hr : (check_catalog_access w u c "USAGE" st).1 with
    | false =>
      refine ⟨l0, ?_, hnt0⟩
      simp [check_schema_access, hadm, hr, hl0]
    | true =>
      cases hcache : permCacheGet (check_catalog_access w u c "USAGE" st).2 u.email
          (permCacheKey u.email (c ++ "." ++ s) p) with
      | some b =>
        refine ⟨l0, ?_, hnt0⟩
        simp [check_schema_access, hadm, hr, hcache, hl0]
      | none =>
        by_cases hcl : u.hasClient = true
        · cases hg : w.grants SecurableType.schema (c ++ "." ++ s) u.email with
          | none =>
            refine ⟨l0 ++ [(SecurableType.schema, c ++ "." ++ s)], ?_, ?_⟩
            · simp [check_schema_access, hadm, hr, hcache, hcl, hg, logGrant, hl0]
            · intro e he
              rcases List.mem_append.mp he with h | h
              · exact hnt0 e h
              · simp at h
                simp [h]
          | some privs =>
            refine ⟨l0 ++ [(SecurableType.schema, c ++ "." ++ s)], ?_, ?_⟩
            · simp [check_schema_access, hadm, hr, hcache, hcl, hg, logGrant,
                permCacheSet, hl0]
            · intro e he
              rcases List.mem_append.mp he with h | h
              · exact hnt0 e h
              · simp at h
                simp [h]
        · refine ⟨l0, ?_, hnt0⟩
          simp [check_schema_access, hadm, hr, hcache, hcl, hl0]

/-! ### C1 -/

/-- C1: for every admin user context, `check_catalog_access`,
`check_schema_access` and `check_table_access` return true (leaving the
cache and call log untouched) for every resource name and privilege, and
`inject_row_level_security` returns its input SQL unchanged for every
`sql` and `table_filters` argument. -/
theorem admin_bypasses_checks_and_rls (w : Workspace) (u : UserContext)
    (c s t p sql : String) (tf : Option (List (String × String))) (st : PermState)
    (h : u.is_admin = true) :
    check_catalog_access w u c p st = (true, st) ∧
    check_schema_access w u c s p st = (true, st) ∧
    check_table_access w u c s t p st = (true, st) ∧
    inject_row_level_security sql u tf = sql := by
  unfold check_catalog_access check_schema_access check_table_access
    inject_row_level_security
  simp [h]

/-- Witness for C1 at a concrete admin user, workspace and query. -/
theorem admin_bypasses_checks_and_rls_witness :
    check_catalog_access wUsage uAdmin "cat1" "SELECT" permSt0 = (true, permSt0) ∧
    check_schema_access wUsage uAdmin "cat1" "s1" "SELECT" permSt0 = (true, permSt0) ∧
    check_table_access wUsage uAdmin "cat1" "s1" "t1" "SELECT" permSt0 = (true, permSt0) ∧
    inject_row_level_security "SELECT * FROM t WHERE x = 1" uAdmin Option.none =
      "SELECT * FROM t WHERE x = 1" :=
  admin_bypasses_checks_and_rls wUsage uAdmin "cat1" "s1" "t1" "SELECT"
    "SELECT * FROM t WHERE x = 1" Option.none permSt0 rfl

/-! ### C2 -/

/-- C2: for a non-admin user, whenever `check_schema_access(u, c, s, "USAGE")`
returns false, `check_table_access(u, c, s, t, p)` returns false with the
state exactly as the schema check left it — in particular the table-level
privilege-store lookup is never performed for that call: every TABLE entry
of the resulting call log was already in the incoming log. -/
theorem table_check_short_circuits_on_schema_denial (w : Workspace) (u : UserContext)
    (c s t p : String) (st : PermState) (hadm : u.is_admin = false)
    (hs : (check_schema_access w u c s "USAGE" st).1 = false) :
    check_table_access w u c s t p st = (false, (check_schema_access w u c s "USAGE" st).2) ∧
    ∀ full, (SecurableType.table, full) ∈ (check_table_access w u c s t p st).2.glog →
      (SecurableType.table, full) ∈ st.glog := by
  have heq : check_table_access w u c s t p st =
      (false, (check_schema_access w u c s "USAGE" st).2) := by
    unfold check_table_access
    simp [hadm, hs]
  refine ⟨heq, ?_⟩
  intro full hmem
  rw [heq] at hmem
  obtain ⟨l, hl, hnt⟩ := check_schema_access_glog w u c s "USAGE" st
  rw [hl] at hmem
  rcases List.mem_append.mp hmem with h | h
  · exact h
  · exact absurd rfl (hnt _ h)

/-- Witness for C2: a concrete non-admin user denied schema USAGE by a
store that grants no privileges. -/
theorem table_check_short_circuits_on_schema_denial_witness :
    check_table_access wNoPriv uBob "c" "s" "t" "SELECT" permSt0 =
      (false, (check_schema_access wNoPriv uBob "c" "s" "USAGE" permSt0).2) :=
  (table_check_short_circuits_on_schema_denial wNoPriv uBob "c" "s" "t" "SELECT" permSt0
    rfl (by decide)).1

/-! ### C3 -/

/-- C3: for a non-admin user, whenever the external lookup performed during
`check_catalog_access`, `check_schema_access` or `check_table_access` raises
(modelled as `catInfo` returning false or `grants` returning `none`), the
check returns false — the failure is caught, never propagated.  The lookup
is reached exactly when the key is not cached and, for the child checks,
the parent USAGE check passed; those are the hypotheses of each conjunct. -/
theorem failed_lookup_denies_access (w : Workspace) (u : UserContext)
    (c s t p : String) (st : PermState) (hadm : u.is_admin = false) :
    (permCacheGet st u.email (permCacheKey u.email c p) = Option.none →
      (w.catInfo c = false ∨ w.grants SecurableType.catalog c u.email = Option.none) →
      (check_catalog_access w u c p st).1 = false) ∧
    ((check_catalog_access w u c "USAGE" st).1 = true →
      permCacheGet (check_catalog_access w u c "USAGE" st).2 u.email
          (permCacheKey u.email (c ++ "." ++ s) p) = Option.none →
      w.grants SecurableType.schema (c ++ "." ++ s) u.email = Option.none →
      (check_schema_access w u c s p st).1 = false) ∧
    ((check_schema_access w u c s "USAGE" st).1 = true →
      permCacheGet (check_schema_access w u c s "USAGE" st).2 u.email
          (permCacheKey u.email (c ++ "." ++ s ++ "." ++ t) p) = Option.none →
      w.grants SecurableType.table (c ++ "." ++ s ++ "." ++ t) u.email = Option.none →
      (check_table_access w u c s t p st).1 = false) := by
  refine ⟨?_, ?_, ?_⟩
  · intro hcache hfail
    by_cases hcl : u.hasClient = true
    · rcases hfail with hcat | hg
      · simp [check_catalog_access, hadm, hcache, hcl, hcat]
      · by_cases hcat : w.catInfo c = true
        · simp [check_catalog_access, hadm, hcache, hcl, hcat, hg]
        · simp [check_catalog_access, hadm, hcache, hcl, hcat]
    · simp [check_catalog_access, hadm, hcache, hcl]
  · intro hr hcache hg
    by_cases hcl : u.hasClient = true
    · simp [check_schema_access, hadm, hr, hcache, hcl, hg]
    · simp [check_schema_access, hadm, hr, hcache, hcl]
  · intro hr hcache hg
    by_cases hcl : u.hasClient = true
    · simp [check_table_access, hadm, hr, hcache, hcl, hg]
    · simp [check_table_access, hadm, hr, hcache, hcl]

/-- Witness for C3: the always-raising privilege store denies a concrete
non-admin user at the catalog level. -/
theorem failed_lookup_denies_access_witness :
    (check_catalog_access wErr uBob "cat" "SELECT" permSt0).1 = false :=
  (failed_lookup_denies_access wErr uBob "cat" "s" "t" "SELECT" permSt0 rfl).1 rfl
    (Or.inr rfl)

/-! ### C4 -/

/-- Counterexample to C4 as stated: when the privilege-store lookup raises,
nothing is cached, so two sequential `check_catalog_access` calls with
identical arguments and no intervening `clear_cache` perform TWO
`grants.get_effective` calls — "at most one underlying collaborator call"
fails (here with a concrete non-admin user against a store that raises). -/
theorem two_calls_can_make_two_lookups :
    ¬((check_catalog_access wErr uBob "cat" "SELECT"
        (check_catalog_access wErr uBob "cat" "SELECT" permSt0).2).2.glog.length ≤ 1) := by
  decide

/-- C4 amended: for a non-admin user, two sequential `check_catalog_access`
calls with identical arguments and no intervening `clear_cache` produce the
same boolean result; whenever the first call left the result cached (which
happens exactly when its lookup succeeded), the second call is answered
from the cache with no state change — hence no further collaborator call;
and a check never evicts any stored cache entry (there is no TTL: only
`clear_cache` removes entries). -/
theorem check_catalog_access_cache_amended (w : Workspace) (u : UserContext)
    (c p : String) (st : PermState) (hadm : u.is_admin = false) :
    (check_catalog_access w u c p (check_catalog_access w u c p st).2).1 =
      (check_catalog_access w u c p st).1 ∧
    (∀ v, permCacheGet (check_catalog_access w u c p st).2 u.email
        (permCacheKey u.email c p) = some v →
      check_catalog_access w u c p (check_catalog_access w u c p st).2 =
        (v, (check_catalog_access w u c p st).2)) ∧
    (∀ e k v, permCacheGet st e k = some v →
      permCacheGet (check_catalog_access w u c p st).2 e k = some v) := by
  refine ⟨?_, ?_, ?_⟩
  · cases hcache : permCacheGet st u.email (permCacheKey u.email c p) with
    | some b => simp [check_catalog_access, hadm, hcache]
    | none =>
      by_cases hcl : u.hasClient = true
      · by_cases hcat : w.catInfo c = true
        · cases hg : w.grants SecurableType.catalog c u.email with
          | none =>
            simp [check_catalog_access, hadm, hcache, hcl, hcat, hg,
              permCacheGet_logGrant]
          | some privs =>
            simp [check_catalog_access, hadm, hcache, hcl, hcat, hg,
              permCacheGet_permCacheSet]
        · simp [check_catalog_access, hadm, hcache, hcl, hcat]
      · simp [check_catalog_access, hadm, hcache, hcl]
  · intro v hv
    have hhit : ∀ st', permCacheGet st' u.email (permCacheKey u.email c p) = some v →
        check_catalog_access w u c p st' = (v, st') := by
      intro st' hv'
      simp [check_catalog_access, hadm, hv']
    exact hhit _ hv
  · intro e k v hv
    cases hcache : permCacheGet st u.email (permCacheKey u.email c p) with
    | some b => simp [check_catalog_access, hadm, hcache, hv]
    | none =>
      by_cases hcl : u.hasClient = true
      · by_cases hcat : w.catInfo c = true
        · cases hg : w.grants SecurableType.catalog c u.email with
          | none =>
            simp [check_catalog_access, hadm, hcache, hcl, hcat, hg,
              permCacheGet_logGrant, hv]
          | some privs =>
            simp only [check_catalog_access, hadm, hcache, hcl, hcat, hg]
            simp only [Bool.false_eq_true, if_false, if_true, ite_true, ite_false]
            rw [permCacheGet_permCacheSet]
            by_cases he : e = u.email
            · rw [if_pos he]
              by_cases hk : k = permCacheKey u.email c p
              · exfalso
                rw [he, hk] at hv
                rw [hcache] at hv
                exact Option.noConfusion hv
              · rw [if_neg hk, permCacheGet_logGrant]
                exact hv
            · rw [if_neg he, permCacheGet_logGrant]
              exact hv
        · simp [check_catalog_access, hadm, hcache, hcl, hcat, hv]
      · simp [check_catalog_access, hadm, hcache, hcl, hv]

/-- Witness for C4's amended theorem: a concrete non-admin user whose first
call succeeds and caches `true`; the second call is served from the cache. -/
theorem check_catalog_access_cache_amended_witness :
    check_catalog_access wUsage uBob "cat1" "SELECT"
        (check_catalog_access wUsage uBob "cat1" "SELECT" permSt0).2 =
      (true, (check_catalog_access wUsage uBob "cat1" "SELECT" permSt0).2) :=
  (check_catalog_access_cache_amended wUsage uBob "cat1" "SELECT" permSt0 rfl).2.1 true
    (by decide)

/-! ### C8 -/

/-- Counterexample to C8 as stated: this statement contains a WHERE clause
(even by the code's own case-insensitive test on the uppercased SQL), yet
for a non-admin user with no filters it is returned unchanged — no
identity predicate is injected — because the replacement step looks for
the literal uppercase token "WHERE" only. -/
theorem rls_skips_lowercase_where_clause :
    strIn "WHERE" (pyUpper "select * from t where active = true") = true ∧
    inject_row_level_security "select * from t where active = true" uBob Option.none =
      "select * from t where active = true" ∧
    strIn "current_user" (inject_row_level_security
      "select * from t where active = true" uBob Option.none) = false := by
  decide

/-- C8 amended: for a non-admin user with no supplied `table_filters`, if
the uppercased statement does not contain "WHERE" the statement is
returned unchanged (no default filter is injected), and when the statement
contains the literal uppercase "WHERE" the default identity predicate is
ANDed into it — on the spec's example the result is exactly
"SELECT * FROM t WHERE current_user() = 'a@b.com' AND active = true".
Lowercase `where` clauses are NOT rewritten (see the counterexample). -/
theorem inject_rls_default_filter_amended (u : UserContext) (hadm : u.is_admin = false) :
    (∀ sql, strIn "WHERE" (pyUpper sql) = false →
      inject_row_level_security sql u Option.none = sql) ∧
    inject_row_level_security "SELECT * FROM t WHERE active = true" uBob Option.none =
      "SELECT * FROM t WHERE current_user() = 'a@b.com' AND active = true" := by
  constructor
  · intro sql h
    simp [inject_row_level_security, hadm, h]
  · decide

/-- Witness for C8's amended theorem at a concrete statement with no
WHERE clause. -/
theorem inject_rls_default_filter_amended_witness :
    inject_row_level_security "SELECT * FROM t" uBob Option.none = "SELECT * FROM t" :=
  (inject_rls_default_filter_amended uBob rfl).1 "SELECT * FROM t" (by decide)

/-! ### C9 -/

/-- Witness fixture: an identity lookup that accepts exactly "tok-1". -/
def idFix : String → Option UserContext :=
  fun t => if t = "tok-1" then some uBob else Option.none

/-- Witness fixture: a session cache holding "tok-1" cached at time 0. -/
def sessTok : SessState :=
  { cache := [("tok-1", (uBob, 0))], lookups := [] }

/-- C9: a successful non-cached authentication for a credential stores
`(UserContext, now)`; a later cached `authenticate` with the same
credential strictly within the 5-minute TTL returns the identical
`UserContext` with the state untouched (no identity lookup); a call 5
minutes or more after caching logs a fresh identity lookup and, when the
lookup succeeds, removes the stale entry and stores the new one. -/
theorem session_cache_ttl_behavior (identity : String → Option UserContext)
    (token : String) (u : UserContext) (T now : Nat) (st : SessState) :
    (dictGet st.cache token = Option.none → ∀ u', identity token = some u' →
      get_user_context_cached identity token now st =
        (Except.ok u',
          { cache := dictSet st.cache token (u', now)
            lookups := st.lookups ++ [token] })) ∧
    (dictGet st.cache token = some (u, T) → now - T < sessionCacheTtl →
      get_user_context_cached identity token now st = (Except.ok u, st)) ∧
    (dictGet st.cache token = some (u, T) → sessionCacheTtl ≤ now - T →
      (get_user_context_cached identity token now st).2.lookups =
        st.lookups ++ [token] ∧
      ∀ u', identity token = some u' →
        get_user_context_cached identity token now st =
          (Except.ok u',
            { cache := dictSet (dictDel st.cache token) token (u', now)
              lookups := st.lookups ++ [token] })) := by
  refine ⟨?_, ?_, ?_⟩
  · intro hmiss u' hid
    simp [get_user_context_cached, get_cached_session, cache_user_session, hmiss, hid]
  · intro hhit hfresh
    simp [get_user_context_cached, get_cached_session, hhit, hfresh]
  · intro hhit hstale
    have hnf : ¬(now - T < sessionCacheTtl) := Nat.not_lt.mpr hstale
    constructor
    · cases hid : identity token <;>
        simp [get_user_context_cached, get_cached_session, cache_user_session, hhit,
          hnf, hid]
    · intro u' hid
      simp [get_user_context_cached, get_cached_session, cache_user_session, hhit,
        hnf, hid]

/-- Witness for C9: a concrete cached token served from the cache at
`T + 4` minutes. -/
theorem session_cache_ttl_behavior_witness :
    get_user_context_cached idFix "tok-1" 240 sessTok = (Except.ok uBob, sessTok) :=
  (session_cache_ttl_behavior idFix "tok-1" uBob 0 240 sessTok).2.1 rfl (by decide)

/-! ### C10 -/

theorem scopeAddSchemas_preserves (w : Workspace) (u : UserContext) (cat : String)
    (schemas : List String) (scope : DataAccessScope) (st : PermState) :
    (scopeAddSchemas w u cat schemas scope st).1.accessible_catalogs =
      scope.accessible_catalogs ∧
    (scopeAddSchemas w u cat schemas scope st).1.accessible_tables =
      scope.accessible_tables ∧
    (scopeAddSchemas w u cat schemas scope st).1.row_level_filters =
      scope.row_level_filters ∧
    (scopeAddSchemas w u cat schemas scope st).1.restricted_columns =
      scope.restricted_columns ∧
    (scopeAddSchemas w u cat schemas scope st).1.access_levels = scope.access_levels := by
  induction schemas generalizing scope st with
  | nil => simp [scopeAddSchemas]
  | cons sn rest ih =>
    by_cases hr : (check_schema_access w u cat sn "USAGE" st).1 = true
    · simp [scopeAddSchemas, hr, ih]
    · simp [scopeAddSchemas, hr, ih]

theorem scopeAddCatalogs_preserves (w : Workspace) (u : UserContext)
    (catalogs : List String) (scope : DataAccessScope) (st : PermState) :
    (scopeAddCatalogs w u catalogs scope st).1.accessible_tables =
      scope.accessible_tables ∧
    (scopeAddCatalogs w u catalogs scope st).1.row_level_filters =
      scope.row_level_filters ∧
    (scopeAddCatalogs w u catalogs scope st).1.restricted_columns =
      scope.restricted_columns ∧
    (scopeAddCatalogs w u catalogs scope st).1.access_levels = scope.access_levels := by
  induction catalogs generalizing scope st with
  | nil => simp [scopeAddCatalogs]
  | cons cn rest ih =>
    by_cases hr : (check_catalog_access w u cn "USAGE" st).1 = true
    · cases hs : w.schemasList cn with
      | none => simp [scopeAddCatalogs, hr, hs, ih]
      | some schemas => simp [scopeAddCatalogs, hr, hs, ih, scopeAddSchemas_preserves]
    · simp [scopeAddCatalogs, hr, ih]

/-- C10: for every non-admin user, the `DataAccessScope` built by
`get_user_data_scope` has `accessible_tables`, `row_level_filters`,
`restricted_columns` and `access_levels` all empty — only catalogs and
schemas are ever populated, and in particular the admin-only wildcard
"*.*.*" is never present — so `can_access_table` on that scope returns
false for every catalog, schema and table. -/
theorem non_admin_scope_has_no_table_access (w : Workspace) (u : UserContext)
    (st : PermState) (hadm : u.is_admin = false) :
    (get_user_data_scope w u st).1.accessible_tables = [] ∧
    (get_user_data_scope w u st).1.row_level_filters = [] ∧
    (get_user_data_scope w u st).1.restricted_columns = [] ∧
    (get_user_data_scope w u st).1.access_levels = [] ∧
    ∀ c s t, can_access_table (get_user_data_scope w u st).1 c s t = false := by
  have hfields : (get_user_data_scope w u st).1.accessible_tables = [] ∧
      (get_user_data_scope w u st).1.row_level_filters = [] ∧
      (get_user_data_scope w u st).1.restricted_columns = [] ∧
      (get_user_data_scope w u st).1.access_levels = [] := by
    by_cases hcl : u.hasClient = true
    · cases hcat : w.catalogsList with
      | none => simp [get_user_data_scope, hadm, hcl, hcat, emptyScope]
      | some cats =>
        have hp := scopeAddCatalogs_preserves w u cats emptyScope st
        simp only [get_user_data_scope, hadm, Bool.false_eq_true, if_false, hcl,
          if_true, hcat]
        simpa [emptyScope] using hp
    · simp [get_user_data_scope, hadm, hcl, emptyScope]
  refine ⟨hfields.1, hfields.2.1, hfields.2.2.1, hfields.2.2.2, ?_⟩
  intro c s t
  simp [can_access_table, hfields.1]

/-- Witness for C10: a concrete non-admin user whose scope (which does
contain an accessible catalog and schema) still grants no table access. -/
theorem non_admin_scope_has_no_table_access_witness :
    can_access_table (get_user_data_scope wUsage uBob permSt0).1 "cat1" "s1" "t1" =
      false :=
  (non_admin_scope_has_no_table_access wUsage uBob permSt0 rfl).2.2.2.2 "cat1" "s1" "t1"

/-! ### C5 -/

/-- Fixture: the empty configuration-service state. -/
def cfgSt0 : ConfigState := { cache := [], qlog := [] }

/-- Fixture: a metadata store with no rows in any table. -/
def msEmpty : MetaStore :=
  { queryRows := fun _ => [], filterRows := fun _ => [], vizRows := fun _ => [] }

/-- Fixture: the `dashboard_queries` row for query "q1" of the spec's
configuration round-trip scenario. -/
def q1row : QueryRow :=
  { id := "q1", name := "Query One", description := Option.none, category := "usage"
    sql_template := "SELECT * FROM t WHERE region = '$\x7bregion\x7d'"
    parameters := some [{ name := "region", required := true, default_value := Option.none }]
    output_schema := Option.none, required_permissions := Option.none
    allow_drill_down := Option.none, drill_down_query_id := Option.none
    cache_ttl_seconds := Option.none, tags := Option.none, is_active := Option.none }

/-- Fixture: the `QueryConfig` that `q1row` loads as. -/
def qc1 : QueryConfig := rowToQueryConfig q1row

/-- Fixture: a metadata store serving exactly query "q1". -/
def ms1 : MetaStore :=
  { queryRows := fun s => if s = queryConfigSql defaultConfigSvc "q1" then [q1row] else []
    filterRows := fun _ => [], vizRows := fun _ => [] }

/-- Fixture: a configuration state whose cache holds a non-empty query
list under "queries_all", stored at time 0. -/
def cfgStList : ConfigState :=
  { cache := [("queries_all", (CachedValue.queryList [qc1], 0))], qlog := [] }

theorem cfgGetCached_qlog (st : ConfigState) (k : String) (now : Nat) :
    (cfgGetCached st k now).2.qlog = st.qlog := by
  unfold cfgGetCached
  cases hm : dictGet st.cache k with
  | none => rfl
  | some p =>
    obtain ⟨v, T⟩ := p
    by_cases h : now - T < configCacheTtl <;> simp [h]

/-- Counterexample to C5 as stated: `get_all_queries` against a store with
no active rows caches the empty list at time 0 (first conjunct), yet a
second call 60 seconds later — well within the 5-minute TTL — issues a
second metadata-store query (the query log has length 2), because
`if cached:` treats the cached empty list as a miss. -/
theorem cached_empty_list_is_requeried :
    dictGet (get_all_queries msEmpty defaultConfigSvc Option.none 0 cfgSt0).2.cache
        "queries_all" = some (CachedValue.queryList [], 0) ∧
    (get_all_queries msEmpty defaultConfigSvc Option.none 60
        (get_all_queries msEmpty defaultConfigSvc Option.none 0 cfgSt0).2).2.qlog.length
      = 2 := by
  decide

/-- C5 amended: for each read-through method, a fresh cache hit (strictly
within 5 minutes) whose stored value is truthy — a config object for
`get_query_config`, a NON-EMPTY list for `get_all_queries` /
`get_filter_configs` / `get_viz_configs` — is returned with the state
untouched (no metadata-store query); on a miss or stale entry (modelled as
`_get_cached` yielding `None`) the method issues exactly one store query,
caches the result under its key with the fresh timestamp `now`, and
returns it.  A cached empty list is treated as a miss (see the
counterexample). -/
theorem config_read_through_cache_amended (ms : MetaStore) (svc : ConfigSvc) (now : Nat)
    (st : ConfigState) :
    (∀ id c T, dictGet st.cache ("query_" ++ id) = some (CachedValue.queryCfg c, T) →
      now - T < configCacheTtl →
      get_query_config ms svc id now st = (some c, st)) ∧
    (∀ category l T,
      dictGet st.cache ("queries_" ++ pyOrStr category "all") =
        some (CachedValue.queryList l, T) →
      l ≠ [] → now - T < configCacheTtl →
      get_all_queries ms svc category now st = (l, st)) ∧
    (∀ ft tab l T,
      dictGet st.cache ("filters_" ++ pyOrStr ft "all" ++ "_" ++ pyOrStr tab "all") =
        some (CachedValue.filterList l, T) →
      l ≠ [] → now - T < configCacheTtl →
      get_filter_configs ms svc ft tab now st = (l, st)) ∧
    (∀ tab l T,
      dictGet st.cache ("viz_" ++ pyOrStr tab "all") = some (CachedValue.vizList l, T) →
      l ≠ [] → now - T < configCacheTtl →
      get_viz_configs ms svc tab now st = (l, st)) ∧
    (∀ id, (cfgGetCached st ("query_" ++ id) now).1 = Option.none →
      (get_query_config ms svc id now st).2.qlog = st.qlog ++ [queryConfigSql svc id] ∧
      ∀ cfg, (get_query_config ms svc id now st).1 = some cfg →
        dictGet (get_query_config ms svc id now st).2.cache ("query_" ++ id) =
          some (CachedValue.queryCfg cfg, now)) ∧
    (∀ category,
      (cfgGetCached st ("queries_" ++ pyOrStr category "all") now).1 = Option.none →
      (get_all_queries ms svc category now st).2.qlog =
        st.qlog ++ [allQueriesSql svc category] ∧
      dictGet (get_all_queries ms svc category now st).2.cache
          ("queries_" ++ pyOrStr category "all") =
        some (CachedValue.queryList (get_all_queries ms svc category now st).1, now)) ∧
    (∀ ft tab,
      (cfgGetCached st ("filters_" ++ pyOrStr ft "all" ++ "_" ++ pyOrStr tab "all")
        now).1 = Option.none →
      (get_filter_configs ms svc ft tab now st).2.qlog =
        st.qlog ++ [filterConfigsSql svc ft] ∧
      dictGet (get_filter_configs ms svc ft tab now st).2.cache
          ("filters_" ++ pyOrStr ft "all" ++ "_" ++ pyOrStr tab "all") =
        some (CachedValue.filterList (get_filter_configs ms svc ft tab now st).1, now)) ∧
    (∀ tab, (cfgGetCached st ("viz_" ++ pyOrStr tab "all") now).1 = Option.none →
      (get_viz_configs ms svc tab now st).2.qlog = st.qlog ++ [vizConfigsSql svc tab] ∧
      dictGet (get_viz_configs ms svc tab now st).2.cache ("viz_" ++ pyOrStr tab "all") =
        some (CachedValue.vizList (get_viz_configs ms svc tab now st).1, now)) := by
  have hga : ∀ k, (cfgGetCached st k now).2.qlog = st.qlog := fun k => cfgGetCached_qlog st k now
  refine ⟨?_, ?_, ?_, ?_, ?_, ?_, ?_, ?_⟩
  · intro id c T hk hfresh
    simp [get_query_config, cfgGetCached, hk, hfresh]
  · intro category l T hk hne hfresh
    cases l with
    | nil => exact absurd rfl hne
    | cons c cs => simp [get_all_queries, cfgGetCached, hk, hfresh]
  · intro ft tab l T hk hne hfresh
    cases l with
    | nil => exact absurd rfl hne
    | cons c cs => simp [get_filter_configs, cfgGetCached, hk, hfresh]
  · intro tab l T hk hne hfresh
    cases l with
    | nil => exact absurd rfl hne
    | cons c cs => simp [get_viz_configs, cfgGetCached, hk, hfresh]
  · intro id hmiss
    rcases hgc : cfgGetCached st ("query_" ++ id) now with ⟨o, st1⟩
    rw [hgc] at hmiss
    simp only at hmiss
    subst hmiss
    have hq : st1.qlog = st.qlog := by
      have := hga ("query_" ++ id)
      rw [hgc] at this
      exact this
    constructor
    · simp only [get_query_config]
      rw [hgc]
      cases hrows : ms.queryRows (queryConfigSql svc id) <;>
        simp [cfgSetCached, hq]
    · intro cfg hcfg
      simp only [get_query_config] at hcfg ⊢
      rw [hgc] at hcfg ⊢
      cases hrows : ms.queryRows (queryConfigSql svc id) with
      | nil => rw [hrows] at hcfg; simp at hcfg
      | cons r rs =>
        rw [hrows] at hcfg
        simp at hcfg
        simp [hrows, cfgSetCached, dictGet_dictSet, hcfg]
  · intro category hmiss
    rcases hgc : cfgGetCached st ("queries_" ++ pyOrStr category "all") now with ⟨o, st1⟩
    rw [hgc] at hmiss
    simp only at hmiss
    subst hmiss
    have hq : st1.qlog = st.qlog := by
      have := hga ("queries_" ++ pyOrStr category "all")
      rw [hgc] at this
      exact this
    simp only [get_all_queries]
    rw [hgc]
    simp [cfgSetCached, dictGet_dictSet, hq]
  · intro ft tab hmiss
    rcases hgc : cfgGetCached st
        ("filters_" ++ pyOrStr ft "all" ++ "_" ++ pyOrStr tab "all") now with ⟨o, st1⟩
    rw [hgc] at hmiss
    simp only at hmiss
    subst hmiss
    have hq : st1.qlog = st.qlog := by
      have := hga ("filters_" ++ pyOrStr ft "all" ++ "_" ++ pyOrStr tab "all")
      rw [hgc] at this
      exact this
    simp only [get_filter_configs]
    rw [hgc]
    simp [cfgSetCached, dictGet_dictSet, hq]
  · intro tab hmiss
    rcases hgc : cfgGetCached st ("viz_" ++ pyOrStr tab "all") now with ⟨o, st1⟩
    rw [hgc] at hmiss
    simp only at hmiss
    subst hmiss
    have hq : st1.qlog = st.qlog := by
      have := hga ("viz_" ++ pyOrStr tab "all")
      rw [hgc] at this
      exact this
    simp only [get_viz_configs]
    rw [hgc]
    simp [cfgSetCached, dictGet_dictSet, hq]

/-- Witness for C5's amended theorem: a fresh non-empty cached query list
is served with no store query. -/
theorem config_read_through_cache_amended_witness :
    get_all_queries msEmpty defaultConfigSvc Option.none 60 cfgStList =
      ([qc1], cfgStList) :=
  (config_read_through_cache_amended msEmpty defaultConfigSvc 60 cfgStList).2.1
    Option.none [qc1] 0 (by decide) (by decide) (by decide)

/-! ### C6 -/

/-- Spec-side definition (from the spec's words, for comparison with the
code): the first declared parameter that is required and has no value in
`params`, in declaration order — the parameter a failing render must name. -/
def specFirstMissingRequired (params : List (String × String)) :
    List ParamDef → Option String
  | [] => Option.none
  | d :: rest =>
    if d.required && (dictGet params d.name).isNone then some d.name
    else specFirstMissingRequired params rest

/-- C6: the substitution loop fails with the configuration error naming the
first missing required parameter whenever one exists, and succeeds
otherwise (each declared parameter resolved from `params`, else from its
declared default, every occurrence of its placeholder replaced); on the
spec's round-trip example, `build_query_from_template` with
`region = west` yields exactly "SELECT * FROM t WHERE region = 'west'",
and with empty `params` fails naming `region`. -/
theorem build_query_from_template_resolves_params :
    (∀ (params : List (String × String)) (defs : List ParamDef) (sql : String)
        (n : String),
      specFirstMissingRequired params defs = some n →
      resolveParams params defs sql = Except.error (ConfigErr.missingParam n)) ∧
    (∀ (params : List (String × String)) (defs : List ParamDef) (sql : String),
      specFirstMissingRequired params defs = Option.none →
      ∃ out, resolveParams params defs sql = Except.ok out) ∧
    (build_query_from_template ms1 defaultConfigSvc "q1" [("region", "west")] 0
        cfgSt0).1 = Except.ok "SELECT * FROM t WHERE region = 'west'" ∧
    (build_query_from_template ms1 defaultConfigSvc "q1" [] 0 cfgSt0).1 =
      Except.error (ConfigErr.missingParam "region") := by
  refine ⟨?_, ?_, ?_, ?_⟩
  · intro params defs
    induction defs with
    | nil => intro sql n h; simp [specFirstMissingRequired] at h
    | cons d rest ih =>
      intro sql n h
      cases hdg : dictGet params d.name with
      | some v =>
        simp [specFirstMissingRequired, hdg] at h
        simp [resolveParams, hdg]
        exact ih _ _ h
      | none =>
        by_cases hreq : d.required = true
        · simp [specFirstMissingRequired, hdg, hreq] at h
          subst h
          simp [resolveParams, hdg, hreq]
        · simp [specFirstMissingRequired, hdg, hreq] at h
          cases hdv : d.default_value with
          | some dv =>
            simp [resolveParams, hdg, hreq, hdv]
            exact ih _ _ h
          | none =>
            simp [resolveParams, hdg, hreq, hdv]
            exact ih _ _ h
  · intro params defs
    induction defs with
    | nil => intro sql _; exact ⟨sql, rfl⟩
    | cons d rest ih =>
      intro sql h
      cases hdg : dictGet params d.name with
      | some v =>
        simp [specFirstMissingRequired, hdg] at h
        simpa [resolveParams, hdg] using ih _ h
      | none =>
        by_cases hreq : d.required = true
        · simp [specFirstMissingRequired, hdg, hreq] at h
        · simp [specFirstMissingRequired, hdg, hreq] at h
          cases hdv : d.default_value with
          | some dv => simpa [resolveParams, hdg, hreq, hdv] using ih _ h
          | none => simpa [resolveParams, hdg, hreq, hdv] using ih _ h
  · rfl
  · rfl

/-- Witness for C6: the loop at a concrete missing required parameter. -/
theorem build_query_from_template_resolves_params_witness :
    resolveParams []
        [{ name := "region", required := true, default_value := Option.none }] "x" =
      Except.error (ConfigErr.missingParam "region") :=
  build_query_from_template_resolves_params.1 []
    [{ name := "region", required := true, default_value := Option.none }] "x" "region"
    rfl

/-! ### C7 -/

/-- Fixture: a `dashboard_queries` row whose template contains a
placeholder that no declared parameter covers. -/
def q7row : QueryRow :=
  { q1row with
    id := "q7"
    sql_template := "SELECT * FROM t WHERE x = '$\x7bundeclared\x7d'"
    parameters := some [] }

/-- Fixture: a metadata store serving exactly query "q7". -/
def ms7 : MetaStore :=
  { queryRows := fun s => if s = queryConfigSql defaultConfigSvc "q7" then [q7row] else []
    filterRows := fun _ => [], vizRows := fun _ => [] }

/-- C7 (documents the code bug): on a template whose placeholder matches no
declared parameter, `build_query_from_template` raises nothing and returns
the SQL with the placeholder still present — it does NOT surface the
undeclared placeholder as a configuration error, contradicting the spec's
invariant that such renders must fail rather than silently leave the
placeholder unexpanded. -/
theorem undeclared_placeholder_left_in_output :
    (build_query_from_template ms7 defaultConfigSvc "q7" [] 0 cfgSt0).1 =
      Except.ok "SELECT * FROM t WHERE x = '$\x7bundeclared\x7d'" ∧
    strIn "$\x7bundeclared\x7d"
        "SELECT * FROM t WHERE x = '$\x7bundeclared\x7d'" = true := by
  constructor
  · rfl
  · decide

end ReportingApp
